import Mathlib

/-!
Verification of the inithome home-directory provisioner.

This file gives a shallow embedding of `rubin/nublado/inithome/provisioner.py`:
the UID/GID validator (`Provisioner._validate`, modelled by `validate`) and the
create-or-verify workflow (`Provisioner.provision`, modelled by `provision`).

The filesystem state relevant to one provisioning call is the node stored at
the target path (if any), whether the parent directory exists, and the process
umask. Python pathlib calls `Path.exists`, `Path.is_dir` and `Path.stat`
follow symlinks, so nodes include symlinks and resolution is modelled
explicitly. Side effects (umask mutation, mkdir, chown) are recorded in an
effect trace, and warnings logged via `logging` are returned as a list.
-/

namespace Inithome

/-- A filesystem node as seen at one path. Directories carry their owner, the
full `st_mode` word (file-type bits included) and the list of entry names that
a directory listing returns (`Path.iterdir` never yields the implicit `.` and
`..` markers, so those are not in the list). Symlinks carry the node their
target chain leads to, or are broken. -/
inductive Node where
  | file (st_uid st_gid : Int) (st_mode : Nat)
  | socket (st_uid st_gid : Int) (st_mode : Nat)
  | dir (st_uid st_gid : Int) (st_mode : Nat) (entries : List String)
  | symlinkTo (target : Node)
  | brokenLink
  deriving DecidableEq

/-- Follow a symlink chain to the underlying node; `none` for a broken link.
This is what `Path.exists`, `Path.is_dir`, `Path.stat` and `os.chown` do. -/
def resolve : Node → Option Node
  | .file u g m => some (.file u g m)
  | .socket u g m => some (.socket u g m)
  | .dir u g m es => some (.dir u g m es)
  | .symlinkTo t => resolve t
  | .brokenLink => none

/-- `Path.exists()` on the target path: follows symlinks. -/
def pathExists (h : Option Node) : Bool :=
  (h.bind resolve).isSome

/-- `Path.is_dir()` on the target path: follows symlinks. -/
def isDir (h : Option Node) : Bool :=
  match h.bind resolve with
  | some (.dir _ _ _ _) => true
  | _ => false

/-- `os.chown(path, uid, gid)`: changes the owner of the resolved node. -/
def chownNode (n : Node) (uid gid : Int) : Node :=
  match n with
  | .file _ _ m => .file uid gid m
  | .socket _ _ m => .socket uid gid m
  | .dir _ _ m es => .dir uid gid m es
  | .symlinkTo t => .symlinkTo (chownNode t uid gid)
  | .brokenLink => .brokenLink

/-- The filesystem and process state a provisioning call can see and touch. -/
structure FS where
  home : Option Node
  parentExists : Bool
  umask : Nat
  procUid : Int
  procGid : Int
  deriving DecidableEq

/-- The two fatal invalid-home conditions raised by `provision`
(`InvalidHomeError` in the source), with the data their messages carry. -/
inductive InvalidHome where
  | notADirectory (path : String)
  | wrongOwnerNotEmpty (path : String) (st_uid st_gid uid gid : Int)
  deriving DecidableEq

/-- Lower-level I/O failures surfaced by the filesystem primitives. -/
inductive OSFailure where
  | fileNotFound
  | fileExists
  deriving DecidableEq

/-- The two warnings `provision` can log, with the data their messages carry. -/
inductive Warning where
  | resettingOwnership (path : String) (st_uid st_gid uid gid : Int)
  | unexpectedPermissions (path : String) (permBits : Nat)
  deriving DecidableEq

/-- Recognizer for the ownership-reset warning. -/
def Warning.isResetting : Warning → Bool
  | .resettingOwnership _ _ _ _ _ => true
  | _ => false

/-- Recognizer for the unexpected-permissions warning. -/
def Warning.isUnexpectedPerms : Warning → Bool
  | .unexpectedPermissions _ _ => true
  | _ => false

/-- Mutating filesystem or process-state calls, in the order issued. -/
inductive Eff where
  | setUmask (mask : Nat)
  | mkdirEff (mode : Nat)
  | chownEff (uid gid : Int)
  deriving DecidableEq

/-- The outcome of `provision`: normal return, `InvalidHomeError`, or a
propagated OS-level failure. -/
inductive ProvResult where
  | ok
  | invalidHome (e : InvalidHome)
  | osFailure (e : OSFailure)
  deriving DecidableEq

/-- Everything one `provision` call produces: its result, the final state,
the warnings logged, and the trace of mutating calls. -/
structure ProvOutcome where
  result : ProvResult
  fs : FS
  warnings : List Warning
  effects : List Eff
  deriving DecidableEq

/-- POSIX `mkdir` permission computation: requested mode masked by the
process umask over the permission bits. -/
def applyUmask (mode umask : Nat) : Nat :=
  mode &&& (0o7777 ^^^ (umask &&& 0o7777))

/-- `S_IFDIR`, the file-type bit `stat` reports for a directory. -/
def S_IFDIR : Nat := 0o040000

/-- Source lines 83 to 87: mask the stat snapshot to its permission bits and
warn when they differ from 0700. Runs after the ownership step resolves. -/
def modeCheck (home : String) (st_mode : Nat) (o : ProvOutcome) : ProvOutcome :=
  if st_mode &&& 0o777 ≠ 0o700 then
    { o with warnings := o.warnings ++ [.unexpectedPermissions home (st_mode &&& 0o777)] }
  else o

/-- `Provisioner.provision` (source lines 59 to 87). If the path does not
exist (following symlinks): set umask 0o077, `mkdir` (which fails with
`FileExistsError` when a broken symlink occupies the path, and with
`FileNotFoundError` when the parent is missing), then chown to the target
identity. If it exists but does not resolve to a directory: raise
invalid-home. Otherwise check ownership (fatal when mismatched and
non-empty, repaired with a warning when mismatched and empty) and then warn
on unexpected permission bits computed from the pre-chown stat snapshot. -/
def provision (home : String) (uid gid : Int) (fs : FS) : ProvOutcome :=
  if pathExists fs.home then
    match fs.home.bind resolve with
    | some (.dir st_uid st_gid st_mode entries) =>
      if st_uid ≠ uid ∨ st_gid ≠ gid then
        if entries.length ≠ 0 then
          { result := .invalidHome (.wrongOwnerNotEmpty home st_uid st_gid uid gid),
            fs := fs, warnings := [], effects := [] }
        else
          modeCheck home st_mode
            { result := .ok,
              fs := { fs with home := fs.home.map fun n => chownNode n uid gid },
              warnings := [.resettingOwnership home st_uid st_gid uid gid],
              effects := [.chownEff uid gid] }
      else
        modeCheck home st_mode
          { result := .ok, fs := fs, warnings := [], effects := [] }
    | _ =>
      { result := .invalidHome (.notADirectory home), fs := fs,
        warnings := [], effects := [] }
  else
    let fs1 : FS := { fs with umask := 0o077 }
    match fs.home with
    | some _ =>
      { result := .osFailure .fileExists, fs := fs1, warnings := [],
        effects := [.setUmask 0o077] }
    | none =>
      if fs.parentExists then
        { result := .ok,
          fs := { fs1 with
                  home := some (.dir uid gid (S_IFDIR ||| applyUmask 0o777 fs1.umask) []) },
          warnings := [],
          effects := [.setUmask 0o077, .mkdirEff 0o777, .chownEff uid gid] }
      else
        { result := .osFailure .fileNotFound, fs := fs1, warnings := [],
          effects := [.setUmask 0o077] }

/-- Owner of the resolved node at the path, when stat would succeed. -/
def ownerOf (h : Option Node) : Option (Int × Int) :=
  match h.bind resolve with
  | some (.file u g _) => some (u, g)
  | some (.socket u g _) => some (u, g)
  | some (.dir u g _ _) => some (u, g)
  | _ => none

/-- Permission bits (`st_mode & 0o777`) of the resolved node at the path. -/
def permBitsOf (h : Option Node) : Option Nat :=
  match h.bind resolve with
  | some (.file _ _ m) => some (m &&& 0o777)
  | some (.socket _ _ m) => some (m &&& 0o777)
  | some (.dir _ _ m _) => some (m &&& 0o777)
  | _ => none

/-- Octal digit string of a number, as Python `f"{n:o}"` produces. -/
def octStr (n : Nat) : String := String.mk (Nat.toDigits 8 n)

/-- The ownership-mismatch message prefix built at source lines 73 to 76. -/
def ownerMsg (path : String) (st_uid st_gid uid gid : Int) : String :=
  path ++ " is owned by " ++ toString st_uid ++ ":" ++ toString st_gid ++
    ", not " ++ toString uid ++ ":" ++ toString gid

/-- The message the raised `InvalidHomeError` carries. -/
def renderInvalidHome : InvalidHome → String
  | .notADirectory p => p ++ " exists but is not a directory"
  | .wrongOwnerNotEmpty p su sg u g => ownerMsg p su sg u g ++ " and is not empty"

/-- The message a logged warning carries. -/
def renderWarning : Warning → String
  | .resettingOwnership p su sg u g =>
      ownerMsg p su sg u g ++ " but is empty, resetting ownership"
  | .unexpectedPermissions p m =>
      p ++ " has unexpected permissions: 0" ++ octStr m ++ " != 0700"

/-- `Provisioner._MAX_ID`. -/
def MAX_ID : Int := 2 ^ 32 - 2

/-- The two distinct `ValueError` conditions of `Provisioner._validate`. -/
inductive ValFailure where
  | mustBeNonnegative (value : Int)
  | outOfRange (value : Int)
  deriving DecidableEq

/-- The message the raised `ValueError` carries. -/
def renderValFailure : ValFailure → String
  | .mustBeNonnegative v => "UID or GID must be nonnegative, not " ++ toString v
  | .outOfRange v =>
      "UID or GID out of range (" ++ toString v ++ " > " ++ toString MAX_ID ++ ")"

/-- `Provisioner._validate` (source lines 89 to 108). -/
def validate (ugid : Int) : Except ValFailure Int :=
  if ugid < 0 then .error (.mustBeNonnegative ugid)
  else if ugid > MAX_ID then .error (.outOfRange ugid)
  else .ok ugid

/-- The state `Provisioner.__init__` stores on success. -/
structure Provisioner where
  home : String
  uid : Int
  gid : Int
  deriving DecidableEq

/-- `Provisioner.__init__` (source lines 38 to 42): validate the UID, then
the GID, storing both unchanged. -/
def mkProvisioner (home : String) (uid gid : Int) : Except ValFailure Provisioner :=
  match validate uid with
  | .error e => .error e
  | .ok u =>
    match validate gid with
    | .error e => .error e
    | .ok g => .ok { home := home, uid := u, gid := g }

/-- Substring containment, used to state what a message mentions. -/
def HasSubstr (sub s : String) : Prop := ∃ pre post, s = pre ++ (sub ++ post)

/-- Target path missing, parent present: the creation scenario. -/
def fsMissing : FS :=
  { home := none, parentExists := true, umask := 0o022, procUid := 0, procGid := 0 }

/-- Target path missing and its parent missing too. -/
def fsNoParent : FS :=
  { home := none, parentExists := false, umask := 0o022, procUid := 0, procGid := 0 }

/-- Target path occupied by a symlink that leads to a correctly owned 0700
directory. -/
def fsSymlinkDir : FS :=
  { home := some (.symlinkTo (.dir 1000 1000 0o40700 [])),
    parentExists := true, umask := 0o022, procUid := 0, procGid := 0 }

/-- Target path occupied by a regular file. -/
def fsFileHome : FS :=
  { home := some (.file 4346 4346 0o600), parentExists := true,
    umask := 0o022, procUid := 0, procGid := 0 }

/-- An already correctly provisioned home: right owner, mode 0700. -/
def fsDirGood : FS :=
  { home := some (.dir 2000 200 0o40700 []), parentExists := true,
    umask := 0o022, procUid := 0, procGid := 0 }

/-- A non-empty directory owned by the wrong user. -/
def fsWrongOwnerNonempty : FS :=
  { home := some (.dir 9951 500 0o40700 ["rents"]), parentExists := true,
    umask := 0o022, procUid := 0, procGid := 0 }

/-- An empty directory with the wrong group. -/
def fsWrongGroupEmpty : FS :=
  { home := some (.dir 1088 517 0o40700 []), parentExists := true,
    umask := 0o022, procUid := 0, procGid := 0 }

/-- An empty directory with the wrong group and mode 0775. -/
def fsWrongGroupEmptyBadMode : FS :=
  { home := some (.dir 1088 517 0o40775 []), parentExists := true,
    umask := 0o022, procUid := 0, procGid := 0 }

/-- A directory holding only one dot-prefixed entry, owned by the wrong user. -/
def fsHiddenOnly : FS :=
  { home := some (.dir 9951 500 0o40700 [".bashrc"]), parentExists := true,
    umask := 0o022, procUid := 0, procGid := 0 }

/-- A correctly owned directory with mode 0775. -/
def fsGoodOwnerBadMode : FS :=
  { home := some (.dir 7304 7304 0o40775 []), parentExists := true,
    umask := 0o022, procUid := 0, procGid := 0 }

/-- A non-empty directory with the wrong owner and mode 0775. -/
def fsWrongOwnerBadMode : FS :=
  { home := some (.dir 1009 500 0o40775 ["rents"]), parentExists := true,
    umask := 0o022, procUid := 0, procGid := 0 }

/-- Resolution commutes with `chownNode`: chowning through a symlink chain
changes the owner of the node the chain leads to. -/
theorem resolve_chownNode (n : Node) (uid gid : Int) :
    resolve (chownNode n uid gid) = (resolve n).map fun m => chownNode m uid gid := by
  induction n with
  | file u g m => rfl
  | socket u g m => rfl
  | dir u g m es => rfl
  | symlinkTo t ih => simpa [chownNode, resolve] using ih
  | brokenLink => rfl

/-- Splitting one string literal into two adjacent pieces inside an append. -/
theorem append_merge2 (a b d X : String) (h : a ++ b = d) :
    d ++ X = a ++ (b ++ X) := by
  subst h
  simp only [String.append_assoc]

/-- Splitting one string literal into three adjacent pieces inside an append. -/
theorem append_merge3 (a b c d X : String) (h : a ++ (b ++ c) = d) :
    d ++ X = a ++ (b ++ (c ++ X)) := by
  subst h
  simp only [String.append_assoc]

/-- The not-a-directory message mentions the phrase "not a directory". -/
theorem notADirectory_mentions (p : String) :
    HasSubstr "not a directory" (renderInvalidHome (.notADirectory p)) := by
  refine ⟨p ++ " exists but is ", "", ?_⟩
  simp only [renderInvalidHome, String.append_empty, String.append_assoc]
  exact congrArg (fun s => p ++ s) (by decide)

/-- The wrong-owner message on a non-empty directory mentions "not empty". -/
theorem wrongOwnerNotEmpty_mentions (p : String) (su sg u g : Int) :
    HasSubstr "not empty" (renderInvalidHome (.wrongOwnerNotEmpty p su sg u g)) := by
  refine ⟨ownerMsg p su sg u g ++ " and is ", "", ?_⟩
  simp only [renderInvalidHome, String.append_empty, String.append_assoc]
  exact congrArg (fun s => ownerMsg p su sg u g ++ s) (by decide)

/-- The ownership-reset warning mentions "resetting ownership". -/
theorem resettingOwnership_mentions (p : String) (su sg u g : Int) :
    HasSubstr "resetting ownership" (renderWarning (.resettingOwnership p su sg u g)) := by
  refine ⟨ownerMsg p su sg u g ++ " but is empty, ", "", ?_⟩
  simp only [renderWarning, String.append_empty, String.append_assoc]
  exact congrArg (fun s => ownerMsg p su sg u g ++ s) (by decide)

/-- The permissions warning mentions "unexpected permissions". -/
theorem unexpectedPermissions_mentions (p : String) (m : Nat) :
    HasSubstr "unexpected permissions" (renderWarning (.unexpectedPermissions p m)) := by
  refine ⟨p ++ " has ", ": 0" ++ octStr m ++ " != 0700", ?_⟩
  simp only [renderWarning, String.append_assoc]
  exact congrArg (fun s => p ++ s)
    (append_merge3 " has " "unexpected permissions" ": 0"
      " has unexpected permissions: 0" (octStr m ++ " != 0700") (by decide))

/-- The permissions warning carries the actual permission bits in octal,
preceded by the leading 0 Python prints. -/
theorem unexpectedPermissions_octal (p : String) (m : Nat) :
    HasSubstr ("0" ++ octStr m) (renderWarning (.unexpectedPermissions p m)) := by
  refine ⟨p ++ " has unexpected permissions: ", " != 0700", ?_⟩
  simp only [renderWarning, String.append_assoc]
  exact congrArg (fun s => p ++ s)
    (append_merge2 " has unexpected permissions: " "0"
      " has unexpected permissions: 0" (octStr m ++ " != 0700") (by decide))

/-- The two validator failure messages are distinct, whatever the offending
values are: they already differ at their twelfth character. -/
theorem valFailure_msgs_distinct (v w : Int) :
    renderValFailure (.mustBeNonnegative v) ≠ renderValFailure (.outOfRange w) := by
  intro h
  have hd := congrArg String.data h
  simp only [renderValFailure, String.data_append, List.append_assoc] at hd
  have h1 : 11 < "UID or GID must be nonnegative, not ".data.length := by decide
  have h2 : 11 < "UID or GID out of range (".data.length := by decide
  have h11 : ("UID or GID must be nonnegative, not ".data ++ (toString v).data)[11]? =
      ("UID or GID out of range (".data ++ ((toString w).data ++ (" > ".data ++
        ((toString MAX_ID).data ++ ")".data))))[11]? := by rw [hd]
  rw [List.getElem?_append_left h1, List.getElem?_append_left h2] at h11
  exact absurd h11 (by decide)

/-- `validate` succeeds exactly on the legal range and returns its input. -/
theorem validate_eq_ok (v : Int) :
    validate v = .ok v ↔ 0 ≤ v ∧ v ≤ 2 ^ 32 - 2 := by
  constructor
  · intro h
    unfold validate MAX_ID at h
    split_ifs at h with h1 h2
    exact ⟨by omega, by omega⟩
  · intro h
    have h1 : ¬ v < 0 := by omega
    have h2 : ¬ v > MAX_ID := by unfold MAX_ID; omega
    unfold validate
    simp [h1, h2]

/-- `validate` never alters a value it accepts. -/
theorem validate_ok_val (v w : Int) (h : validate v = .ok w) : w = v := by
  unfold validate at h
  split_ifs at h with h1 h2
  simp_all

/-- The mode check never alters the result. -/
theorem modeCheck_result (home : String) (m : Nat) (o : ProvOutcome) :
    (modeCheck home m o).result = o.result := by
  unfold modeCheck
  split_ifs <;> rfl

/-- The mode check never alters the filesystem. -/
theorem modeCheck_fs (home : String) (m : Nat) (o : ProvOutcome) :
    (modeCheck home m o).fs = o.fs := by
  unfold modeCheck
  split_ifs <;> rfl

/-- The mode check issues no mutating call. -/
theorem modeCheck_effects (home : String) (m : Nat) (o : ProvOutcome) :
    (modeCheck home m o).effects = o.effects := by
  unfold modeCheck
  split_ifs <;> rfl

/-- The mode check either leaves the warnings alone (permission bits 0700) or
appends the single unexpected-permissions warning. -/
theorem modeCheck_warnings (home : String) (m : Nat) (o : ProvOutcome) :
    (m &&& 0o777 = 0o700 ∧ (modeCheck home m o).warnings = o.warnings) ∨
    (m &&& 0o777 ≠ 0o700 ∧ (modeCheck home m o).warnings =
      o.warnings ++ [.unexpectedPermissions home (m &&& 0o777)]) := by
  unfold modeCheck
  by_cases h : m &&& 0o777 = 0o700
  · exact Or.inl ⟨h, by simp [h]⟩
  · exact Or.inr ⟨h, by simp [h]⟩

/-- What `provision` does when the target resolves to a directory: the body of
source lines 70 to 87, with the pre-chown stat snapshot feeding both checks. -/
theorem provision_existing_dir (home : String) (uid gid st_uid st_gid : Int)
    (st_mode : Nat) (entries : List String) (fs : FS)
    (hres : fs.home.bind resolve = some (.dir st_uid st_gid st_mode entries)) :
    provision home uid gid fs =
      if st_uid ≠ uid ∨ st_gid ≠ gid then
        if entries.length ≠ 0 then
          { result := .invalidHome (.wrongOwnerNotEmpty home st_uid st_gid uid gid),
            fs := fs, warnings := [], effects := [] }
        else
          modeCheck home st_mode
            { result := .ok,
              fs := { fs with home := fs.home.map fun n => chownNode n uid gid },
              warnings := [.resettingOwnership home st_uid st_gid uid gid],
              effects := [.chownEff uid gid] }
      else
        modeCheck home st_mode
          { result := .ok, fs := fs, warnings := [], effects := [] } := by
  have hpe : pathExists fs.home = true := by simp [pathExists, hres]
  simp only [provision, hpe, hres, eq_self_iff_true, if_true]

/-- The permission bits seen at the path, straight from the stat snapshot. -/
theorem permBitsOf_of_resolve (fs : FS) (st_uid st_gid : Int) (st_mode : Nat)
    (entries : List String)
    (hres : fs.home.bind resolve = some (.dir st_uid st_gid st_mode entries)) :
    permBitsOf fs.home = some (st_mode &&& 0o777) := by
  simp [permBitsOf, hres]

/-- After chowning the path, the resolved directory carries the new owner and
its mode and entries are untouched. -/
theorem resolve_after_chown (fs : FS) (uid gid st_uid st_gid : Int)
    (st_mode : Nat) (entries : List String)
    (hres : fs.home.bind resolve = some (.dir st_uid st_gid st_mode entries)) :
    (fs.home.map fun n => chownNode n uid gid).bind resolve =
      some (.dir uid gid st_mode entries) := by
  cases hh : fs.home with
  | none => rw [hh] at hres; simp at hres
  | some n =>
    rw [hh] at hres
    simp only [Option.some_bind] at hres
    simp [resolve_chownNode, hres, chownNode]

example : provision "/h" 1 1 ⟨none, true, 0o022, 0, 0⟩ =
    { result := .ok,
      fs := ⟨some (.dir 1 1 0o40700 []), true, 0o077, 0, 0⟩,
      warnings := [],
      effects := [.setUmask 0o077, .mkdirEff 0o777, .chownEff 1 1] } := by
  decide

example : (provision "/h" 1 1 ⟨some (.file 1 1 0o600), true, 0o022, 0, 0⟩).result =
    .invalidHome (.notADirectory "/h") := by decide

example : (provision "/h" 1 1 ⟨some (.symlinkTo (.dir 1 1 0o40700 [])), true, 0o022, 0, 0⟩).result =
    .ok := by decide

example : renderInvalidHome (.notADirectory "/h") = "/h exists but is not a directory" := by
  decide

example : octStr 0o775 = "775" := by decide

/-- Claim C2: constructing a Provisioner with identifiers uid and gid succeeds
and stores them unchanged if and only if both lie in [0, 2^32 - 2] (zero
included); otherwise construction fails with a ValueError, using the
"nonnegative" message for negative values and the "out of range" message for
values above the maximum, and the two messages are always distinct. -/
theorem C2_construction (home : String) (uid gid : Int) :
    (mkProvisioner home uid gid = .ok ⟨home, uid, gid⟩ ↔
      (0 ≤ uid ∧ uid ≤ 2 ^ 32 - 2) ∧ (0 ≤ gid ∧ gid ≤ 2 ^ 32 - 2))
  ∧ (∀ p : Provisioner, mkProvisioner home uid gid = .ok p → p = ⟨home, uid, gid⟩)
  ∧ (¬ ((0 ≤ uid ∧ uid ≤ 2 ^ 32 - 2) ∧ (0 ≤ gid ∧ gid ≤ 2 ^ 32 - 2)) →
      ∃ e : ValFailure, mkProvisioner home uid gid = .error e)
  ∧ (∀ v : Int, v < 0 → validate v = .error (.mustBeNonnegative v))
  ∧ (∀ v : Int, v > 2 ^ 32 - 2 → validate v = .error (.outOfRange v))
  ∧ HasSubstr "nonnegative" (renderValFailure (.mustBeNonnegative uid))
  ∧ HasSubstr "out of range" (renderValFailure (.outOfRange gid))
  ∧ (∀ v w : Int, renderValFailure (.mustBeNonnegative v) ≠
      renderValFailure (.outOfRange w)) := by
  have hneg : ∀ v : Int, v < 0 → validate v = .error (.mustBeNonnegative v) := by
    intro v hv
    unfold validate
    simp [hv]
  have hbig : ∀ v : Int, v > 2 ^ 32 - 2 → validate v = .error (.outOfRange v) := by
    intro v hv
    have h1 : ¬ v < 0 := by omega
    have h2 : v > MAX_ID := by unfold MAX_ID; omega
    unfold validate
    simp [h1, h2]
  refine ⟨?_, ?_, ?_, hneg, hbig, ?_, ?_, valFailure_msgs_distinct⟩
  · constructor
    · intro h
      rcases hu : validate uid with eu | u
      · simp [mkProvisioner, hu] at h
      · rcases hg : validate gid with eg | g
        · simp [mkProvisioner, hu, hg] at h
        · rw [validate_ok_val uid u hu] at hu
          rw [validate_ok_val gid g hg] at hg
          exact ⟨(validate_eq_ok uid).mp hu, (validate_eq_ok gid).mp hg⟩
    · rintro ⟨hu, hg⟩
      simp [mkProvisioner, (validate_eq_ok uid).mpr hu, (validate_eq_ok gid).mpr hg]
  · intro p h
    rcases hu : validate uid with eu | u
    · simp [mkProvisioner, hu] at h
    · rcases hg : validate gid with eg | g
      · simp [mkProvisioner, hu, hg] at h
      · rw [validate_ok_val uid u hu] at hu
        rw [validate_ok_val gid g hg] at hg
        simp [mkProvisioner, hu, hg] at h
        exact h.symm
  · intro hbad
    by_cases hu : 0 ≤ uid ∧ uid ≤ 2 ^ 32 - 2
    · have hg : ¬ (0 ≤ gid ∧ gid ≤ 2 ^ 32 - 2) := fun hg => hbad ⟨hu, hg⟩
      by_cases hgn : gid < 0
      · exact ⟨.mustBeNonnegative gid, by
          simp [mkProvisioner, (validate_eq_ok uid).mpr hu, hneg gid hgn]⟩
      · have hgb : gid > 2 ^ 32 - 2 := by omega
        exact ⟨.outOfRange gid, by
          simp [mkProvisioner, (validate_eq_ok uid).mpr hu, hbig gid hgb]⟩
    · by_cases hun : uid < 0
      · exact ⟨.mustBeNonnegative uid, by simp [mkProvisioner, hneg uid hun]⟩
      · have hub : uid > 2 ^ 32 - 2 := by omega
        exact ⟨.outOfRange uid, by simp [mkProvisioner, hbig uid hub]⟩
  · exact ⟨"UID or GID must be ", ", not " ++ toString uid, by
      simp only [renderValFailure, String.append_assoc]
      exact append_merge3 "UID or GID must be " "nonnegative" ", not "
        "UID or GID must be nonnegative, not " (toString uid) (by decide)⟩
  · exact ⟨"UID or GID ", " (" ++ toString gid ++ " > " ++ toString MAX_ID ++ ")", by
      simp only [renderValFailure, String.append_assoc]
      exact append_merge3 "UID or GID " "out of range" " ("
        "UID or GID out of range (" (toString gid ++ (" > " ++
          (toString MAX_ID ++ ")"))) (by decide)⟩

/-- Claim C2, witness: the theorem applied at concrete identifiers, matching
the values exercised by the repository tests. -/
theorem C2_construction_witness :
    (mkProvisioner "/home/leni" 0 200 = .ok ⟨"/home/leni", 0, 200⟩)
  ∧ (∃ e : ValFailure, mkProvisioner "/home/leni" (-1) 200 = .error e)
  ∧ (validate (-1) = .error (.mustBeNonnegative (-1)))
  ∧ (validate (2 ^ 32 - 1) = .error (.outOfRange (2 ^ 32 - 1))) :=
  ⟨(C2_construction "/home/leni" 0 200).1.mpr (by decide),
   (C2_construction "/home/leni" (-1) 200).2.2.1 (by decide),
   (C2_construction "/home/leni" (-1) 200).2.2.2.1 (-1) (by decide),
   (C2_construction "/home/leni" 0 200).2.2.2.2.1 (2 ^ 32 - 1) (by decide)⟩

/-- Claim C1, counterexample: the existence and directory checks follow
symlinks, so a symlink pointing at a correctly owned 0700 directory is
accepted and provision returns normally, instead of failing with the
invalid-home error the claim requires for every existing non-directory. -/
theorem C1_symlink_followed_counterexample :
    fsSymlinkDir.home = some (.symlinkTo (.dir 1000 1000 0o40700 []))
  ∧ (provision "/home/franz" 1000 1000 fsSymlinkDir).result = .ok
  ∧ (provision "/home/franz" 1000 1000 fsSymlinkDir).warnings = [] := by
  exact ⟨rfl, by decide, by decide⟩

/-- Claim C1 (amended): for every path that exists and, after following
symlinks, does not resolve to a directory, provision fails immediately with
the invalid-home error whose message states the path exists but is not a
directory; nothing is repaired, logged or mutated. The checks are following,
so a symlink is implicitly resolved into the node it points to. -/
theorem C1_not_directory_fatal (home : String) (uid gid : Int) (fs : FS)
    (hex : pathExists fs.home = true) (hnd : isDir fs.home = false) :
    provision home uid gid fs =
      { result := .invalidHome (.notADirectory home), fs := fs,
        warnings := [], effects := [] }
  ∧ HasSubstr "not a directory" (renderInvalidHome (.notADirectory home)) := by
  refine ⟨?_, notADirectory_mentions home⟩
  rcases hres : fs.home.bind resolve with _ | n
  · rw [pathExists, hres] at hex
    exact absurd hex (by simp)
  · cases n with
    | dir u g m es =>
      rw [isDir, hres] at hnd
      exact absurd hnd (by simp)
    | file u g m => simp [provision, pathExists, hres]
    | socket u g m => simp [provision, pathExists, hres]
    | symlinkTo t => simp [provision, pathExists, hres]
    | brokenLink => simp [provision, pathExists, hres]

/-- Claim C1 (amended), witness: a regular file at the target path. -/
theorem C1_not_directory_fatal_witness :
    provision "/home/huld" 4346 4346 fsFileHome =
      { result := .invalidHome (.notADirectory "/home/huld"), fs := fsFileHome,
        warnings := [], effects := [] }
  ∧ HasSubstr "not a directory" (renderInvalidHome (.notADirectory "/home/huld")) :=
  C1_not_directory_fatal "/home/huld" 4346 4346 fsFileHome (by decide) (by decide)

/-- Claim C3: when the target does not exist and its parent does, provision
succeeds; afterwards the path is a directory owned by (uid, gid) with
permission bits exactly 0700, and the trace shows the umask being set before
the directory is created and the ownership being set after creation. -/
theorem C3_create (home : String) (uid gid : Int) (fs : FS)
    (habs : fs.home = none) (hpar : fs.parentExists = true) :
    (provision home uid gid fs).result = .ok
  ∧ isDir (provision home uid gid fs).fs.home = true
  ∧ ownerOf (provision home uid gid fs).fs.home = some (uid, gid)
  ∧ permBitsOf (provision home uid gid fs).fs.home = some 0o700
  ∧ (provision home uid gid fs).effects =
      [.setUmask 0o077, .mkdirEff 0o777, .chownEff uid gid] := by
  have hout : provision home uid gid fs =
      { result := .ok,
        fs := { fs with
                umask := 0o077
                home := some (.dir uid gid (S_IFDIR ||| applyUmask 0o777 0o077) []) },
        warnings := [],
        effects := [.setUmask 0o077, .mkdirEff 0o777, .chownEff uid gid] } := by
    simp [provision, pathExists, habs, hpar]
  rw [hout]
  refine ⟨rfl, ?_, ?_, ?_, rfl⟩
  · simp [isDir, resolve]
  · simp [ownerOf, resolve]
  · simp only [permBitsOf, Option.some_bind, resolve, S_IFDIR, applyUmask]
    decide

/-- Claim C3, witness: creating a fresh home, as in the basic repository
test. -/
theorem C3_create_witness :
    (provision "/home/gregorsamsa" 2247 200 fsMissing).result = .ok
  ∧ isDir (provision "/home/gregorsamsa" 2247 200 fsMissing).fs.home = true
  ∧ ownerOf (provision "/home/gregorsamsa" 2247 200 fsMissing).fs.home = some (2247, 200)
  ∧ permBitsOf (provision "/home/gregorsamsa" 2247 200 fsMissing).fs.home = some 0o700
  ∧ (provision "/home/gregorsamsa" 2247 200 fsMissing).effects =
      [.setUmask 0o077, .mkdirEff 0o777, .chownEff 2247 200] :=
  C3_create "/home/gregorsamsa" 2247 200 fsMissing rfl rfl

/-- Claim C4: an existing non-empty directory with mismatched ownership makes
provision fail with the invalid-home error whose message carries the actual
and expected owner and says "not empty"; the filesystem is left untouched, no
warning is logged and no mutating call is made. -/
theorem C4_nonempty_mismatch (home : String) (uid gid st_uid st_gid : Int)
    (st_mode : Nat) (entries : List String) (fs : FS)
    (hres : fs.home.bind resolve = some (.dir st_uid st_gid st_mode entries))
    (hmm : st_uid ≠ uid ∨ st_gid ≠ gid)
    (hne : entries ≠ []) :
    provision home uid gid fs =
      { result := .invalidHome (.wrongOwnerNotEmpty home st_uid st_gid uid gid),
        fs := fs, warnings := [], effects := [] }
  ∧ HasSubstr "not empty"
      (renderInvalidHome (.wrongOwnerNotEmpty home st_uid st_gid uid gid))
  ∧ renderInvalidHome (.wrongOwnerNotEmpty home st_uid st_gid uid gid) =
      ownerMsg home st_uid st_gid uid gid ++ " and is not empty" := by
  refine ⟨?_, wrongOwnerNotEmpty_mentions home st_uid st_gid uid gid, rfl⟩
  have hlen : entries.length ≠ 0 := by simpa using hne
  rw [provision_existing_dir home uid gid st_uid st_gid st_mode entries fs hres,
    if_pos hmm, if_pos hlen]

/-- Claim C4, witness: the wrong-owner non-empty directory of the repository
test. -/
theorem C4_nonempty_mismatch_witness :
    provision "/home/grubach" 9942 500 fsWrongOwnerNonempty =
      { result := .invalidHome (.wrongOwnerNotEmpty "/home/grubach" 9951 500 9942 500),
        fs := fsWrongOwnerNonempty, warnings := [], effects := [] }
  ∧ HasSubstr "not empty"
      (renderInvalidHome (.wrongOwnerNotEmpty "/home/grubach" 9951 500 9942 500))
  ∧ renderInvalidHome (.wrongOwnerNotEmpty "/home/grubach" 9951 500 9942 500) =
      ownerMsg "/home/grubach" 9951 500 9942 500 ++ " and is not empty" :=
  C4_nonempty_mismatch "/home/grubach" 9942 500 9951 500 0o40700 ["rents"]
    fsWrongOwnerNonempty rfl (Or.inl (by decide)) (by decide)

/-- Claim C5: an existing empty directory with mismatched ownership is
repaired, never fatal: provision succeeds, logs exactly one ownership-reset
warning (the first warning logged, whose message contains "resetting
ownership"), chowns the directory, and the final owner is (uid, gid). -/
theorem C5_empty_mismatch_reset (home : String) (uid gid st_uid st_gid : Int)
    (st_mode : Nat) (fs : FS)
    (hres : fs.home.bind resolve = some (.dir st_uid st_gid st_mode []))
    (hmm : st_uid ≠ uid ∨ st_gid ≠ gid) :
    (provision home uid gid fs).result = .ok
  ∧ ownerOf (provision home uid gid fs).fs.home = some (uid, gid)
  ∧ (provision home uid gid fs).warnings.filter Warning.isResetting =
      [.resettingOwnership home st_uid st_gid uid gid]
  ∧ (provision home uid gid fs).warnings.head? =
      some (.resettingOwnership home st_uid st_gid uid gid)
  ∧ (provision home uid gid fs).effects = [.chownEff uid gid]
  ∧ HasSubstr "resetting ownership"
      (renderWarning (.resettingOwnership home st_uid st_gid uid gid)) := by
  rw [provision_existing_dir home uid gid st_uid st_gid st_mode [] fs hres,
    if_pos hmm, if_neg (by simp)]
  refine ⟨modeCheck_result _ _ _, ?_, ?_, ?_, modeCheck_effects _ _ _,
    resettingOwnership_mentions home st_uid st_gid uid gid⟩
  · rw [modeCheck_fs]
    simp only [ownerOf, resolve_after_chown fs uid gid st_uid st_gid st_mode [] hres]
  · rcases modeCheck_warnings home st_mode
      { result := .ok,
        fs := { fs with home := fs.home.map fun n => chownNode n uid gid },
        warnings := [.resettingOwnership home st_uid st_gid uid gid],
        effects := [.chownEff uid gid] } with ⟨_, hw⟩ | ⟨_, hw⟩ <;>
      simp [hw, Warning.isResetting]
  · rcases modeCheck_warnings home st_mode
      { result := .ok,
        fs := { fs with home := fs.home.map fun n => chownNode n uid gid },
        warnings := [.resettingOwnership home st_uid st_gid uid gid],
        effects := [.chownEff uid gid] } with ⟨_, hw⟩ | ⟨_, hw⟩ <;>
      simp [hw]

/-- Claim C5, witness: the empty wrong-group directory of the repository
test. -/
theorem C5_empty_mismatch_reset_witness :
    (provision "/home/karl" 1088 500 fsWrongGroupEmpty).result = .ok
  ∧ ownerOf (provision "/home/karl" 1088 500 fsWrongGroupEmpty).fs.home = some (1088, 500)
  ∧ (provision "/home/karl" 1088 500 fsWrongGroupEmpty).warnings.filter Warning.isResetting =
      [.resettingOwnership "/home/karl" 1088 517 1088 500]
  ∧ (provision "/home/karl" 1088 500 fsWrongGroupEmpty).warnings.head? =
      some (.resettingOwnership "/home/karl" 1088 517 1088 500)
  ∧ (provision "/home/karl" 1088 500 fsWrongGroupEmpty).effects = [.chownEff 1088 500]
  ∧ HasSubstr "resetting ownership"
      (renderWarning (.resettingOwnership "/home/karl" 1088 517 1088 500)) :=
  C5_empty_mismatch_reset "/home/karl" 1088 500 1088 517 0o40700 fsWrongGroupEmpty
    rfl (Or.inr (by decide))

/-- Claim C6: provision is idempotent on an already correct home: an existing
directory owned by (uid, gid) with permission bits 0700 produces no mutation,
no warning, no effect at all, and succeeds. -/
theorem C6_idempotent (home : String) (uid gid : Int) (st_mode : Nat)
    (entries : List String) (fs : FS)
    (hres : fs.home.bind resolve = some (.dir uid gid st_mode entries))
    (hmode : st_mode &&& 0o777 = 0o700) :
    provision home uid gid fs =
      { result := .ok, fs := fs, warnings := [], effects := [] } := by
  rw [provision_existing_dir home uid gid uid gid st_mode entries fs hres,
    if_neg (by simp)]
  unfold modeCheck
  rw [if_neg (by simp [hmode])]

/-- Claim C6, witness: the precreated correct home of the repository test. -/
theorem C6_idempotent_witness :
    provision "/home/leni" 2000 200 fsDirGood =
      { result := .ok, fs := fsDirGood, warnings := [], effects := [] } :=
  C6_idempotent "/home/leni" 2000 200 0o40700 [] fsDirGood rfl (by decide)

/-- Claim C7, counterexample: a pre-existing directory whose permission bits
are 0775, owned by the wrong user and non-empty. Its mode differs from 0700,
yet provision fails with invalid-home and logs no warning at all, refuting
"logs a warning ... but never fails" read over every directory with
unexpected mode. -/
theorem C7_mode_counterexample :
    permBitsOf fsWrongOwnerBadMode.home = some 0o775
  ∧ (provision "/home/grubach" 1000 500 fsWrongOwnerBadMode).result =
      .invalidHome (.wrongOwnerNotEmpty "/home/grubach" 1009 500 1000 500)
  ∧ (provision "/home/grubach" 1000 500 fsWrongOwnerBadMode).warnings = [] := by
  exact ⟨by decide, by decide, by decide⟩

/-- Claim C7 (amended): for every pre-existing directory whose mode masked to
its permission bits differs from 0700 and on which the ownership step does
not raise (owner matches, or the directory is empty), provision succeeds,
logs exactly one warning reporting the actual permission bits in octal
(containing "unexpected permissions"), and leaves the permission bits exactly
as found. -/
theorem C7_mode_advisory (home : String) (uid gid st_uid st_gid : Int)
    (st_mode : Nat) (entries : List String) (fs : FS)
    (hres : fs.home.bind resolve = some (.dir st_uid st_gid st_mode entries))
    (hmode : st_mode &&& 0o777 ≠ 0o700)
    (hsafe : (st_uid = uid ∧ st_gid = gid) ∨ entries = []) :
    (provision home uid gid fs).result = .ok
  ∧ (provision home uid gid fs).warnings.filter Warning.isUnexpectedPerms =
      [.unexpectedPermissions home (st_mode &&& 0o777)]
  ∧ (provision home uid gid fs).warnings.getLast? =
      some (.unexpectedPermissions home (st_mode &&& 0o777))
  ∧ permBitsOf (provision home uid gid fs).fs.home = some (st_mode &&& 0o777)
  ∧ HasSubstr "unexpected permissions"
      (renderWarning (.unexpectedPermissions home (st_mode &&& 0o777)))
  ∧ HasSubstr ("0" ++ octStr (st_mode &&& 0o777))
      (renderWarning (.unexpectedPermissions home (st_mode &&& 0o777))) := by
  rw [provision_existing_dir home uid gid st_uid st_gid st_mode entries fs hres]
  have hmc : ∀ o : ProvOutcome, (modeCheck home st_mode o).warnings =
      o.warnings ++ [.unexpectedPermissions home (st_mode &&& 0o777)] := by
    intro o
    rcases modeCheck_warnings home st_mode o with ⟨h, _⟩ | ⟨_, hw⟩
    · exact absurd h hmode
    · exact hw
  rcases hsafe with ⟨h1, h2⟩ | hemp
  · rw [if_neg (by simp [h1, h2])]
    refine ⟨modeCheck_result _ _ _, ?_, ?_, ?_,
      unexpectedPermissions_mentions home (st_mode &&& 0o777),
      unexpectedPermissions_octal home (st_mode &&& 0o777)⟩
    · rw [hmc]
      simp [Warning.isUnexpectedPerms]
    · rw [hmc]
      simp
    · rw [modeCheck_fs]
      exact permBitsOf_of_resolve fs st_uid st_gid st_mode entries hres
  · subst hemp
    by_cases hmm : st_uid ≠ uid ∨ st_gid ≠ gid
    · rw [if_pos hmm, if_neg (by simp)]
      refine ⟨modeCheck_result _ _ _, ?_, ?_, ?_,
        unexpectedPermissions_mentions home (st_mode &&& 0o777),
        unexpectedPermissions_octal home (st_mode &&& 0o777)⟩
      · rw [hmc]
        simp [Warning.isUnexpectedPerms, Warning.isResetting]
      · rw [hmc]
        simp
      · rw [modeCheck_fs]
        simp only [permBitsOf, resolve_after_chown fs uid gid st_uid st_gid st_mode [] hres]
    · rw [if_neg hmm]
      refine ⟨modeCheck_result _ _ _, ?_, ?_, ?_,
        unexpectedPermissions_mentions home (st_mode &&& 0o777),
        unexpectedPermissions_octal home (st_mode &&& 0o777)⟩
      · rw [hmc]
        simp [Warning.isUnexpectedPerms]
      · rw [hmc]
        simp
      · rw [modeCheck_fs]
        exact permBitsOf_of_resolve fs st_uid st_gid st_mode [] hres

/-- Claim C7 (amended), witness: correctly owned directory with mode 0775, as
in the repository test. -/
theorem C7_mode_advisory_witness :
    (provision "/home/burstner" 7304 7304 fsGoodOwnerBadMode).result = .ok
  ∧ (provision "/home/burstner" 7304 7304 fsGoodOwnerBadMode).warnings.filter
      Warning.isUnexpectedPerms = [.unexpectedPermissions "/home/burstner" 0o775]
  ∧ (provision "/home/burstner" 7304 7304 fsGoodOwnerBadMode).warnings.getLast? =
      some (.unexpectedPermissions "/home/burstner" 0o775)
  ∧ permBitsOf (provision "/home/burstner" 7304 7304 fsGoodOwnerBadMode).fs.home =
      some 0o775
  ∧ HasSubstr "unexpected permissions"
      (renderWarning (.unexpectedPermissions "/home/burstner" 0o775))
  ∧ HasSubstr ("0" ++ octStr 0o775)
      (renderWarning (.unexpectedPermissions "/home/burstner" 0o775)) :=
  C7_mode_advisory "/home/burstner" 7304 7304 7304 7304 0o40775 [] fsGoodOwnerBadMode
    rfl (by decide) (Or.inl ⟨rfl, rfl⟩)

/-- Claim C8: OS-level failures are propagated, never wrapped: a missing
parent makes provision surface the file-not-found failure (after the umask
was already set), and an invalid-home result can only arise when the path
exists, while an OS failure can only arise when it does not. -/
theorem C8_os_propagation (home : String) (uid gid : Int) (fs : FS) :
    (fs.home = none → fs.parentExists = false →
      provision home uid gid fs =
        { result := .osFailure .fileNotFound, fs := { fs with umask := 0o077 },
          warnings := [], effects := [.setUmask 0o077] })
  ∧ (∀ e : InvalidHome, (provision home uid gid fs).result = .invalidHome e →
      pathExists fs.home = true)
  ∧ (∀ e : OSFailure, (provision home uid gid fs).result = .osFailure e →
      pathExists fs.home = false) := by
  refine ⟨?_, ?_, ?_⟩
  · intro h1 h2
    simp [provision, pathExists, h1, h2]
  · intro e h
    cases hpe : pathExists fs.home with
    | true => rfl
    | false =>
      exfalso
      simp only [provision, hpe, Bool.false_eq_true, if_false] at h
      cases hh : fs.home with
      | some n =>
        rw [hh] at h
        simp at h
      | none =>
        rw [hh] at h
        cases hp : fs.parentExists with
        | true =>
          rw [hp] at h
          simp at h
        | false =>
          rw [hp] at h
          simp at h
  · intro e h
    cases hpe : pathExists fs.home with
    | false => rfl
    | true =>
      exfalso
      rcases hres : fs.home.bind resolve with _ | n
      · rw [pathExists, hres] at hpe
        exact absurd hpe (by simp)
      · cases n with
        | dir u g m es =>
          rw [provision_existing_dir home uid gid u g m es fs hres] at h
          split_ifs at h
          · rw [modeCheck_result] at h
            simp at h
          · rw [modeCheck_result] at h
            simp at h
        | file u g m =>
          simp [provision, pathExists, hres] at h
        | socket u g m =>
          simp [provision, pathExists, hres] at h
        | symlinkTo t =>
          simp [provision, pathExists, hres] at h
        | brokenLink =>
          simp [provision, pathExists, hres] at h

/-- Claim C8, witness: missing parent directory, as in the subdirectory
repository test. -/
theorem C8_os_propagation_witness :
    provision "/home/j/josephk/nublado" 63928 63928 fsNoParent =
      { result := .osFailure .fileNotFound, fs := { fsNoParent with umask := 0o077 },
        warnings := [], effects := [.setUmask 0o077] } :=
  (C8_os_propagation "/home/j/josephk/nublado" 63928 63928 fsNoParent).1 rfl rfl

/-- Claim C9: on an ownership mismatch the fatal branch is taken exactly when
the directory listing has a nonzero number of entries, with no name
filtering; in particular a single dot-prefixed entry already makes the
directory non-empty and fatal. -/
theorem C9_emptiness (home : String) (uid gid st_uid st_gid : Int)
    (st_mode : Nat) (entries : List String) (fs : FS)
    (hres : fs.home.bind resolve = some (.dir st_uid st_gid st_mode entries))
    (hmm : st_uid ≠ uid ∨ st_gid ≠ gid) :
    ((provision home uid gid fs).result =
        .invalidHome (.wrongOwnerNotEmpty home st_uid st_gid uid gid)
      ↔ entries.length ≠ 0)
  ∧ (∀ name : String, entries = [name] →
      (provision home uid gid fs).result =
        .invalidHome (.wrongOwnerNotEmpty home st_uid st_gid uid gid)) := by
  rw [provision_existing_dir home uid gid st_uid st_gid st_mode entries fs hres,
    if_pos hmm]
  by_cases hlen : entries.length ≠ 0
  · rw [if_pos hlen]
    exact ⟨⟨fun _ => hlen, fun _ => rfl⟩, fun name hn => rfl⟩
  · rw [if_neg hlen]
    constructor
    · rw [modeCheck_result]
      exact ⟨fun h => absurd h (by simp), fun h => absurd h hlen⟩
    · intro name hn
      rw [hn] at hlen
      exact absurd (by simp) hlen

/-- Claim C9, witness: a directory holding only ".bashrc" is non-empty and
fatal on ownership mismatch. -/
theorem C9_emptiness_witness :
    ((provision "/home/grubach" 9942 500 fsHiddenOnly).result =
        .invalidHome (.wrongOwnerNotEmpty "/home/grubach" 9951 500 9942 500)
      ↔ ([".bashrc"] : List String).length ≠ 0)
  ∧ (provision "/home/grubach" 9942 500 fsHiddenOnly).result =
      .invalidHome (.wrongOwnerNotEmpty "/home/grubach" 9951 500 9942 500) :=
  ⟨(C9_emptiness "/home/grubach" 9942 500 9951 500 0o40700 [".bashrc"] fsHiddenOnly
      rfl (Or.inl (by decide))).1,
   (C9_emptiness "/home/grubach" 9942 500 9951 500 0o40700 [".bashrc"] fsHiddenOnly
      rfl (Or.inl (by decide))).2 ".bashrc" rfl⟩

/-- Claim C10: an existing empty directory with both wrong ownership and
non-0700 permission bits makes provision succeed while logging both warnings,
the ownership reset first and then the unexpected-permissions warning
computed from the stat snapshot taken before the chown. -/
theorem C10_two_warnings (home : String) (uid gid st_uid st_gid : Int)
    (st_mode : Nat) (fs : FS)
    (hres : fs.home.bind resolve = some (.dir st_uid st_gid st_mode []))
    (hmm : st_uid ≠ uid ∨ st_gid ≠ gid)
    (hmode : st_mode &&& 0o777 ≠ 0o700) :
    (provision home uid gid fs).result = .ok
  ∧ (provision home uid gid fs).warnings =
      [.resettingOwnership home st_uid st_gid uid gid,
       .unexpectedPermissions home (st_mode &&& 0o777)] := by
  rw [provision_existing_dir home uid gid st_uid st_gid st_mode [] fs hres,
    if_pos hmm, if_neg (by simp)]
  unfold modeCheck
  rw [if_pos hmode]
  exact ⟨rfl, rfl⟩

/-- Claim C10, witness: empty, wrong group, mode 0775. -/
theorem C10_two_warnings_witness :
    (provision "/home/karl" 1088 500 fsWrongGroupEmptyBadMode).result = .ok
  ∧ (provision "/home/karl" 1088 500 fsWrongGroupEmptyBadMode).warnings =
      [.resettingOwnership "/home/karl" 1088 517 1088 500,
       .unexpectedPermissions "/home/karl" 0o775] :=
  C10_two_warnings "/home/karl" 1088 500 1088 517 0o40775 fsWrongGroupEmptyBadMode
    rfl (Or.inr (by decide)) (by decide)

end Inithome
